import Mathlib

/-!
Verification of the whisper-api transcription service (src/main.py)

Shallow embedding of the job-orchestration layer of `src/main.py`:
the in-memory job registry (a Python dict), the per-job filesystem
effects, the background job executor, the synchronous `/transcribe/`
handler, and the job lifecycle endpoints.

Modelling conventions:
* The Python dict `jobs` is an association list `List (String × Job)`;
  `dictInsert` has Python assignment semantics (replace if present).
* The filesystem is a pair of association lists: files (path ↦ content)
  and a list of existing directories.  `os.remove` of an existing file
  succeeds (best-effort failures that the code swallows are not modelled).
* Word-segment timestamps (Python floats, seconds) are modelled as exact
  natural-number milliseconds; none of the verified properties depend on
  float rounding.
* Exceptions are modelled explicitly: a handler returns its new state
  together with either a value or the escaped exception.
-/

namespace WhisperAPI

/-- Job status values stored in the `status` field of a job dict
(`"processing"`, `"completed"`, `"failed"` in the source). -/
inductive Status where
  | processing
  | completed
  | failed
deriving DecidableEq, Repr

/-- A job record, mirroring the dict created in `create_transcription_job`
(src/main.py lines 136–143). -/
structure Job where
  id : String
  status : Status
  created_at : Nat
  audio_path : String
  srt_path : String
  error : Option String
deriving DecidableEq, Repr

/-- Lookup in a Python-dict model (association list). -/
def dictLookup (d : List (String × Job)) (k : String) : Option Job :=
  match d with
  | [] => none
  | (k', v) :: rest => if k' = k then some v else dictLookup rest k

/-- Assignment `d[k] = v` with Python dict semantics: replaces an existing binding,
otherwise appends a new one. -/
def dictInsert (d : List (String × Job)) (k : String) (v : Job) :
    List (String × Job) :=
  match d with
  | [] => [(k, v)]
  | (k', v') :: rest =>
      if k' = k then (k, v) :: rest else (k', v') :: dictInsert rest k v

/-- Deletion `del d[k]`: removes the binding for `k` (no-op when absent; the source
only deletes after a membership check). -/
def dictErase (d : List (String × Job)) (k : String) : List (String × Job) :=
  match d with
  | [] => []
  | (k', v') :: rest =>
      if k' = k then dictErase rest k else (k', v') :: dictErase rest k

/-- Filesystem model: files as path ↦ content, plus existing directories. -/
structure FS where
  files : List (String × String)
  dirs : List String
deriving DecidableEq, Repr

/-- Lookup among the file entries. -/
def filesLookup (l : List (String × String)) (p : String) : Option String :=
  match l with
  | [] => none
  | (k, v) :: rest => if k = p then some v else filesLookup rest p

/-- Content of a file, if it exists. -/
def fsRead (fs : FS) (p : String) : Option String :=
  filesLookup fs.files p

/-- Test `os.path.exists`, restricted to files. -/
def fsExistsFile (fs : FS) (p : String) : Bool :=
  (fsRead fs p).isSome

/-- Drop every entry for path `p`. -/
def filesRemove (l : List (String × String)) (p : String) : List (String × String) :=
  match l with
  | [] => []
  | (k, v) :: rest => if k = p then filesRemove rest p else (k, v) :: filesRemove rest p

/-- Write `open(p, "w").write(content)`: create or overwrite. -/
def fsWrite (fs : FS) (p content : String) : FS :=
  { fs with files := (p, content) :: filesRemove fs.files p }

/-- Removal `os.remove p` (on a path known to exist; no-op otherwise). -/
def fsRemoveFile (fs : FS) (p : String) : FS :=
  { fs with files := filesRemove fs.files p }

/-- Directory creation `os.makedirs(d, exist_ok=True)`. -/
def fsMkdir (fs : FS) (d : String) : FS :=
  if d ∈ fs.dirs then fs else { fs with dirs := d :: fs.dirs }

/-- Does `p` start with `pre`? (used to detect entries inside a directory). -/
def charsLeadTo : List Char → List Char → Bool
  | [], _ => true
  | _ :: _, [] => false
  | a :: as, b :: bs => a == b && charsLeadTo as bs

/-- Removal `os.rmdir d` wrapped in `try/except: pass`: removes the directory only
when it exists and holds no file; otherwise leaves the filesystem unchanged. -/
def fsRmdirAttempt (fs : FS) (d : String) : FS :=
  if d ∈ fs.dirs ∧ fs.files.all (fun kv => ¬ charsLeadTo (d ++ "/").data kv.1.data) then
    { fs with dirs := fs.dirs.filter (fun d' => d' ≠ d) }
  else fs

/-- Word-level segment produced by the alignment step: `start`/`end` in
milliseconds (source: float seconds) and the word text. -/
structure Segment where
  startMs : Nat
  endMs : Nat
  word : String
deriving DecidableEq, Repr

/-- Zero-pad a decimal rendering to `width` digits. -/
def padNum (width n : Nat) : String :=
  let s := Nat.repr n
  String.mk (List.replicate (width - s.length) (Char.ofNat 48)) ++ s

/-- Timestamp `HH:MM:SS,mmm` of a millisecond count (the rendering of a
`timedelta` by the srt library). -/
def srtTimestamp (ms : Nat) : String :=
  padNum 2 (ms / 3600000) ++ ":" ++ padNum 2 (ms / 60000 % 60) ++ ":" ++
    padNum 2 (ms / 1000 % 60) ++ "," ++ padNum 3 (ms % 1000)

/-- One subtitle block as composed by `srt.compose`: index line, timing
line, content, blank separator. -/
def subtitleBlock (idx : Nat) (seg : Segment) : String :=
  Nat.repr idx ++ "\n" ++ srtTimestamp seg.startMs ++ " --> " ++
    srtTimestamp seg.endMs ++ "\n" ++ seg.word ++ "\n\n"

/-- Composition over the enumerated segments, indices starting at `idx`. -/
def srtComposeAux (idx : Nat) : List Segment → String
  | [] => ""
  | seg :: rest => subtitleBlock idx seg ++ srtComposeAux (idx + 1) rest

/-- Model of `srt.compose(subtitles)` where `subtitles` carries indices 1,2,…
as built by `generate_srt` (src/main.py lines 30–39). -/
def srtCompose (segs : List Segment) : String :=
  srtComposeAux 1 segs

/-- Function `generate_srt(transcription, file_path)` (src/main.py lines 30–42):
composes the SRT text and writes it to `file_path`. -/
def generate_srt (fs : FS) (transcription : List Segment) (file_path : String) : FS :=
  fsWrite fs file_path (srtCompose transcription)

/-- Function `remove_temp_files(temp_files)` (src/main.py lines 44–50): removes each
path that exists; returns the new filesystem and the list of paths
actually removed (in order). -/
def remove_temp_files (fs : FS) (temp_files : List String) : FS × List String :=
  match temp_files with
  | [] => (fs, [])
  | p :: rest =>
      if fsExistsFile fs p then
        let r := remove_temp_files (fsRemoveFile fs p) rest
        (r.1, p :: r.2)
      else remove_temp_files fs rest

/-- Combined mutable state of the service: the module-level `jobs` dict
(line 28) and the filesystem. -/
structure SysState where
  jobs : List (String × Job)
  fs : FS
deriving DecidableEq, Repr

/-- Status of `job_id` in a state (`none` when not registered). -/
def statusOf (st : SysState) (job_id : String) : Option Status :=
  (dictLookup st.jobs job_id).map Job.status

/-- An error raised via `HTTPException(status_code, detail)`. -/
structure HTTPErr where
  status_code : Nat
  detail : String
deriving DecidableEq, Repr

/-- Response body of `create_transcription_job`. -/
structure CreateResp where
  job_id : String
  status : String
deriving DecidableEq, Repr

/-- Handler `create_transcription_job` (`POST /job/transcribe/`, src/main.py lines
117–153).  The generated `uuid.uuid4()` and the `time.time()` reading are
inputs.  Creates `jobs/` and `jobs/{job_id}`, saves the upload, and stores
the record with `jobs[job_id] = {...}` — a plain dict assignment, which
replaces any existing binding.  The `background_tasks.add_task` scheduling
of the executor is modelled by the `Step` relation below. -/
def create_transcription_job (st : SysState) (job_id content : String) (now : Nat) :
    SysState × CreateResp :=
  let fs1 := fsMkdir st.fs "jobs"
  let job_dir := "jobs/" ++ job_id
  let fs2 := fsMkdir fs1 job_dir
  let audio_path := job_dir ++ "/audio.mp3"
  let srt_path := job_dir ++ "/transcription.srt"
  let fs3 := fsWrite fs2 audio_path content
  let job : Job := { id := job_id, status := .processing, created_at := now,
                     audio_path := audio_path, srt_path := srt_path, error := none }
  ({ jobs := dictInsert st.jobs job_id job, fs := fs3 },
   { job_id := job_id, status := "processing" })

/-- Outcome of the external calls inside the executor body: the engine and
alignment produced word segments and the artifact write succeeded, or one
of `model.transcribe` / `whisperx.align` raised, or `generate_srt` raised
before writing. -/
inductive ExecOutcome where
  | success (segs : List Segment)
  | engineError (msg : String)
  | writeError (msg : String)
deriving DecidableEq, Repr

/-- The `except Exception` handler of `run_transcription_job` (lines
170–173): sets `status = "failed"` and records `str(e)` when the record
exists; when the record was deleted, `jobs[job_id]` raises `KeyError`,
which escapes the executor. -/
def execExceptHandler (st : SysState) (job_id msg : String) : SysState × Option String :=
  match dictLookup st.jobs job_id with
  | some job =>
      let failedJob : Job := { job with status := .failed, error := some msg }
      ({ st with jobs := dictInsert st.jobs job_id failedJob }, none)
  | none => (st, some ("KeyError: " ++ job_id))

/-- Executor `run_transcription_job` (lines 155–173).  Returns the state after the
call together with the exception escaping it, when one does.  On success
the body writes the artifact and then runs `jobs[job_id]["status"] =
"completed"`; when the record is gone this raises `KeyError`, which the
handler catches — and then raises `KeyError` itself. -/
def run_transcription_job (st : SysState) (job_id audio_path srt_path : String)
    (outcome : ExecOutcome) : SysState × Option String :=
  match outcome with
  | .engineError msg => execExceptHandler st job_id msg
  | .writeError msg => execExceptHandler st job_id msg
  | .success segs =>
      let st1 : SysState := { st with fs := generate_srt st.fs segs srt_path }
      match dictLookup st1.jobs job_id with
      | some job =>
          let doneJob : Job := { job with status := .completed }
          ({ st1 with jobs := dictInsert st1.jobs job_id doneJob }, none)
      | none => execExceptHandler st1 job_id ("KeyError: " ++ job_id)

/-- Response body of `get_job_status`. -/
structure StatusResp where
  job_id : String
  status : Status
  created_at : Nat
  error : Option String
deriving DecidableEq, Repr

/-- Handler `get_job_status` (`GET /job/{job_id}/status`, lines 175–187): returns
the (unchanged) state and either a 404 or the status payload. -/
def get_job_status (st : SysState) (job_id : String) :
    SysState × Except HTTPErr StatusResp :=
  match dictLookup st.jobs job_id with
  | none => (st, .error { status_code := 404, detail := "Job not found" })
  | some job =>
      (st, .ok { job_id := job_id, status := job.status,
                 created_at := job.created_at, error := job.error })

/-- A scheduled `delayed_cleanup(job_id, delay)` call. -/
structure CleanupTimer where
  job_id : String
  delay : Nat
deriving DecidableEq, Repr

/-- A `FileResponse`. -/
structure FileResp where
  path : String
  filename : String
  media_type : String
deriving DecidableEq, Repr

/-- Handler `get_job_result` (`GET /job/{job_id}/result`, lines 189–214): 404 when
unknown, 202 while processing, 500 when failed; on `completed`, returns a
`FileResponse` for `job.srt_path` whose background task (`cleanup_job`,
lines 204–207) schedules `delayed_cleanup(job_id, 86400)`.  The registry
and filesystem are untouched; the third component lists the timers the
call schedules. -/
def get_job_result (st : SysState) (job_id : String) :
    SysState × Except HTTPErr FileResp × List CleanupTimer :=
  match dictLookup st.jobs job_id with
  | none => (st, .error { status_code := 404, detail := "Job not found" }, [])
  | some job =>
      match job.status with
      | .processing =>
          (st, .error { status_code := 202, detail := "Job is still processing" }, [])
      | .failed =>
          (st, .error { status_code := 500,
                        detail := "Job failed: " ++ job.error.getD "None" }, [])
      | .completed =>
          (st, .ok { path := job.srt_path, filename := "transcription.srt",
                     media_type := "text/plain" },
           [{ job_id := job_id, delay := 86400 }])

/-- Body of `delayed_cleanup(job_id, delay)` after its `asyncio.sleep`
elapses (lines 216–229): when the job is still registered, removes its
audio and srt files, best-effort removes its directory, and deletes the
registry entry; otherwise does nothing. -/
def delayed_cleanup (st : SysState) (job_id : String) : SysState :=
  match dictLookup st.jobs job_id with
  | none => st
  | some job =>
      let fs1 := (remove_temp_files st.fs [job.audio_path, job.srt_path]).1
      let fs2 := fsRmdirAttempt fs1 ("jobs/" ++ job_id)
      { jobs := dictErase st.jobs job_id, fs := fs2 }

/-- Handler `delete_job` (`DELETE /job/{job_id}`, lines 231–251): raises a 404
`HTTPException` when the id is unknown; otherwise removes the files of the job,
best-effort removes its directory, deletes the registry entry and returns
`{"status": "deleted"}`. -/
def delete_job (st : SysState) (job_id : String) :
    SysState × Except HTTPErr String :=
  match dictLookup st.jobs job_id with
  | none => (st, .error { status_code := 404, detail := "Job not found" })
  | some job =>
      let fs1 := (remove_temp_files st.fs [job.audio_path, job.srt_path]).1
      let fs2 := fsRmdirAttempt fs1 ("jobs/" ++ job_id)
      ({ jobs := dictErase st.jobs job_id, fs := fs2 }, .ok "deleted")

/-- Path `f"temp_audio_\x7bos.getpid()\x7d.mp3"` (line 55): derived from the
process id alone. -/
def tempAudioPath (pid : Nat) : String :=
  "temp_audio_" ++ Nat.repr pid ++ ".mp3"

/-- Path `f"transcription_\x7bos.getpid()\x7d.srt"` (line 58): derived from
the process id alone. -/
def tempSrtPath (pid : Nat) : String :=
  "transcription_" ++ Nat.repr pid ++ ".srt"

/-- How the awaited work of a synchronous request ends: the upload write
raises; `asyncio.wait_for` returns (transcription, alignment and artifact
write all succeeded); it raises `asyncio.TimeoutError` after 600 s; or it
re-raises the exception of the worker. -/
inductive SyncOutcome where
  | saveError (msg : String)
  | completed (segs : List Segment)
  | timedOut
  | procError (msg : String)
deriving DecidableEq, Repr

/-- Response of the synchronous handler as received by the client. -/
inductive SyncResp where
  | fileOk (path filename media_type : String)
  | jsonError (status_code : Nat) (error : String)
deriving DecidableEq, Repr

/-- HTTP status code of a synchronous response (200 for a `FileResponse`). -/
def SyncResp.statusCode : SyncResp → Nat
  | .fileOk _ _ _ => 200
  | .jsonError c _ => c

/-- Result of one synchronous request, after the response (and, on
success, its background task) has run. -/
structure SyncResult where
  fs : FS
  resp : SyncResp
  temp_files : List String
  removed : List String
deriving DecidableEq, Repr

/-- Handler `transcribe` (`POST /transcribe/`, lines 52–102), including the effect
of the background task of the success path (which removes the temp files
after the response streams).  `temp_files` is the local variable of the
handler with that name; `removed` is the chronological list of paths physically removed.

Control flow from the source: on `asyncio.TimeoutError` the inner handler
removes the temp files and raises `HTTPException(504, "Processing timed
out")`; `HTTPException` is an `Exception`, so the enclosing handler
catches it, removes the temp files again, and returns a 500 `JSONResponse`
whose `error` is `str(e)` — `"504: Processing timed out"`.  The 504 never
reaches the client. -/
def transcribe (fs : FS) (pid : Nat) (content : String) (outcome : SyncOutcome) :
    SyncResult :=
  let file_location := tempAudioPath pid
  let srt_file_path := tempSrtPath pid
  let temp_files := [file_location, srt_file_path]
  match outcome with
  | .saveError msg =>
      let r := remove_temp_files fs temp_files
      { fs := r.1, resp := .jsonError 500 msg,
        temp_files := temp_files, removed := r.2 }
  | .completed segs =>
      let fs1 := fsWrite fs file_location content
      let fs2 := fsWrite fs1 srt_file_path (srtCompose segs)
      let r := remove_temp_files fs2 temp_files
      { fs := r.1, resp := .fileOk srt_file_path "transcription.srt" "text/plain",
        temp_files := temp_files, removed := r.2 }
  | .timedOut =>
      let fs1 := fsWrite fs file_location content
      let r1 := remove_temp_files fs1 temp_files
      let r2 := remove_temp_files r1.1 temp_files
      { fs := r2.1, resp := .jsonError 500 "504: Processing timed out",
        temp_files := temp_files, removed := r1.2 ++ r2.2 }
  | .procError msg =>
      let fs1 := fsWrite fs file_location content
      let r := remove_temp_files fs1 temp_files
      { fs := r.1, resp := .jsonError 500 msg,
        temp_files := temp_files, removed := r.2 }

/-- A configuration of the lifecycle transition system: the service state
plus the ids whose scheduled executor (`background_tasks.add_task`, lines
146–151) has not yet run. -/
structure Config where
  sys : SysState
  pendingExec : List String
deriving DecidableEq, Repr

/-- One atomic operation of the service, as driven by the HTTP layer.
`create` takes a fresh uuid (the collision-resistance contract of the
generator) and schedules the executor exactly once; `execFinish` runs a
scheduled executor to completion; the remaining steps are the read and
delete endpoints and a cleanup timer firing. -/
inductive Step : Config → Config → Prop where
  | create (c : Config) (job_id content : String) (now : Nat)
      (hfresh : statusOf c.sys job_id = none)
      (hnew : job_id ∉ c.pendingExec) :
      Step c { sys := (create_transcription_job c.sys job_id content now).1,
               pendingExec := job_id :: c.pendingExec }
  | execFinish (c : Config) (job_id audio_path srt_path : String)
      (outcome : ExecOutcome) (hsched : job_id ∈ c.pendingExec) :
      Step c { sys := (run_transcription_job c.sys job_id audio_path srt_path outcome).1,
               pendingExec := c.pendingExec.filter (fun j => j ≠ job_id) }
  | statusQuery (c : Config) (job_id : String) :
      Step c { c with sys := (get_job_status c.sys job_id).1 }
  | resultQuery (c : Config) (job_id : String) :
      Step c { c with sys := (get_job_result c.sys job_id).1 }
  | deleteOp (c : Config) (job_id : String) :
      Step c { c with sys := (delete_job c.sys job_id).1 }
  | cleanupFire (c : Config) (job_id : String) :
      Step c { c with sys := delayed_cleanup c.sys job_id }

/-- Single-writer invariant: a job id whose executor is still pending is
either registered as `processing` or already deleted.  This is what makes
the unconditional status write of the executor a `Processing → terminal`
transition. -/
def PendingInv (c : Config) : Prop :=
  ∀ id, id ∈ c.pendingExec →
    statusOf c.sys id = none ∨ statusOf c.sys id = some .processing

/-! Basic lemmas about the dict and filesystem models -/

theorem dictLookup_cons (k₀ : String) (v₀ : Job) (d : List (String × Job))
    (k' : String) :
    dictLookup ((k₀, v₀) :: d) k' = if k₀ = k' then some v₀ else dictLookup d k' := rfl

theorem dictLookup_insert (d : List (String × Job)) (k : String) (v : Job)
    (k' : String) :
    dictLookup (dictInsert d k v) k' = if k = k' then some v else dictLookup d k' := by
  induction d with
  | nil => rfl
  | cons hd tl ih =>
      obtain ⟨k₀, v₀⟩ := hd
      simp only [dictInsert]
      by_cases h0 : k₀ = k
      · rw [if_pos h0, dictLookup_cons, dictLookup_cons]
        by_cases h1 : k = k'
        · rw [if_pos h1, if_pos h1]
        · rw [if_neg h1, if_neg h1, if_neg (fun hh : k₀ = k' => h1 (h0.symm.trans hh))]
      · rw [if_neg h0, dictLookup_cons, dictLookup_cons]
        by_cases h1 : k₀ = k'
        · have h2 : ¬ k = k' := fun hh => h0 (h1.trans hh.symm)
          rw [if_pos h1, if_neg h2, if_pos h1]
        · rw [if_neg h1, if_neg h1, ih]

theorem dictLookup_erase (d : List (String × Job)) (k k' : String) :
    dictLookup (dictErase d k) k' = if k' = k then none else dictLookup d k' := by
  induction d with
  | nil =>
      by_cases h : k' = k
      · rw [if_pos h]; rfl
      · rw [if_neg h]; rfl
  | cons hd tl ih =>
      obtain ⟨k₀, v₀⟩ := hd
      simp only [dictErase]
      by_cases h0 : k₀ = k
      · rw [if_pos h0, ih, dictLookup_cons]
        by_cases h1 : k' = k
        · rw [if_pos h1, if_pos h1]
        · rw [if_neg h1, if_neg h1, if_neg (fun hh : k₀ = k' => h1 (hh ▸ h0))]
      · rw [if_neg h0, dictLookup_cons, dictLookup_cons, ih]
        by_cases h1 : k₀ = k'
        · have h2 : ¬ k' = k := fun hh => h0 (h1.trans hh)
          rw [if_pos h1, if_neg h2, if_pos h1]
        · by_cases h2 : k' = k
          · rw [if_neg h1, if_pos h2, if_pos h2]
          · rw [if_neg h1, if_neg h2, if_neg h2, if_neg h1]

theorem filesLookup_cons (k₀ v₀ : String) (l : List (String × String))
    (q : String) :
    filesLookup ((k₀, v₀) :: l) q = if k₀ = q then some v₀ else filesLookup l q := rfl

theorem filesLookup_remove (l : List (String × String)) (p q : String) :
    filesLookup (filesRemove l p) q = if q = p then none else filesLookup l q := by
  induction l with
  | nil =>
      by_cases h : q = p
      · rw [if_pos h]; rfl
      · rw [if_neg h]; rfl
  | cons hd tl ih =>
      obtain ⟨k₀, v₀⟩ := hd
      simp only [filesRemove]
      by_cases h0 : k₀ = p
      · rw [if_pos h0, ih, filesLookup_cons]
        by_cases h1 : q = p
        · rw [if_pos h1, if_pos h1]
        · rw [if_neg h1, if_neg h1, if_neg (fun hh : k₀ = q => h1 (hh ▸ h0))]
      · rw [if_neg h0, filesLookup_cons, filesLookup_cons, ih]
        by_cases h1 : k₀ = q
        · have h2 : ¬ q = p := fun hh => h0 (h1.trans hh)
          rw [if_pos h1, if_neg h2, if_pos h1]
        · by_cases h2 : q = p
          · rw [if_neg h1, if_pos h2, if_pos h2]
          · rw [if_neg h1, if_neg h2, if_neg h2, if_neg h1]

theorem fsRead_write (fs : FS) (p c q : String) :
    fsRead (fsWrite fs p c) q = if q = p then some c else fsRead fs q := by
  show filesLookup ((p, c) :: filesRemove fs.files p) q = _
  rw [filesLookup_cons]
  by_cases h : q = p
  · rw [if_pos h.symm, if_pos h]
  · rw [if_neg (fun hh : p = q => h hh.symm), if_neg h, filesLookup_remove, if_neg h]
    rfl

theorem fsRead_removeFile (fs : FS) (p q : String) :
    fsRead (fsRemoveFile fs p) q = if q = p then none else fsRead fs q := by
  show filesLookup (filesRemove fs.files p) q = _
  rw [filesLookup_remove]
  rfl

theorem fsRead_rmdirAttempt (fs : FS) (d p : String) :
    fsRead (fsRmdirAttempt fs d) p = fsRead fs p := by
  unfold fsRmdirAttempt
  split <;> rfl

theorem fsExistsFile_write_self (fs : FS) (p c : String) :
    fsExistsFile (fsWrite fs p c) p = true := by
  simp [fsExistsFile, fsRead_write]

theorem fsExistsFile_write_ne (fs : FS) (p c q : String) (h : q ≠ p) :
    fsExistsFile (fsWrite fs p c) q = fsExistsFile fs q := by
  simp [fsExistsFile, fsRead_write, h]

theorem fsExistsFile_removeFile (fs : FS) (p q : String) :
    fsExistsFile (fsRemoveFile fs p) q =
      if q = p then false else fsExistsFile fs q := by
  by_cases h : q = p <;> simp [fsExistsFile, fsRead_removeFile, h]

theorem filesRemove_of_lookup_none (l : List (String × String)) (p : String)
    (h : filesLookup l p = none) : filesRemove l p = l := by
  induction l with
  | nil => rfl
  | cons hd tl ih =>
      obtain ⟨k₀, v₀⟩ := hd
      rw [filesLookup_cons] at h
      by_cases hk : k₀ = p
      · rw [if_pos hk] at h
        exact absurd h (by simp)
      · rw [if_neg hk] at h
        simp only [filesRemove, if_neg hk]
        rw [ih h]

theorem fsRemoveFile_of_not_exists (fs : FS) (p : String)
    (h : fsExistsFile fs p = false) : fsRemoveFile fs p = fs := by
  have hnone : fsRead fs p = none := by
    cases hr : fsRead fs p with
    | none => rfl
    | some v => simp [fsExistsFile, hr] at h
  obtain ⟨files, dirs⟩ := fs
  simp only [fsRemoveFile]
  rw [filesRemove_of_lookup_none files p hnone]

theorem remove_temp_files_read (fs : FS) (l : List String) (q : String) :
    fsRead (remove_temp_files fs l).1 q = if q ∈ l then none else fsRead fs q := by
  induction l generalizing fs with
  | nil => simp [remove_temp_files]
  | cons p rest ih =>
      simp only [remove_temp_files]
      by_cases hp : fsExistsFile fs p = true
      · rw [if_pos hp]
        show fsRead (remove_temp_files (fsRemoveFile fs p) rest).1 q = _
        rw [ih, fsRead_removeFile]
        by_cases hq1 : q ∈ rest
        · simp [hq1]
        · by_cases hq2 : q = p <;> simp [hq1, hq2]
      · rw [if_neg hp, ih]
        by_cases hq1 : q ∈ rest
        · simp [hq1]
        · by_cases hq2 : q = p
          · subst hq2
            have hnone : fsRead fs q = none := by
              cases hr : fsRead fs q with
              | none => rfl
              | some v => simp [fsExistsFile, hr] at hp
            simp [hq1, hnone]
          · simp [hq1, hq2]

theorem remove_temp_files_not_exists (fs : FS) (l : List String) (q : String)
    (h : q ∈ l) : fsExistsFile (remove_temp_files fs l).1 q = false := by
  simp [fsExistsFile, remove_temp_files_read, h]

theorem remove_temp_files_pair_removed (fs : FS) (a b : String) (hab : a ≠ b) :
    (remove_temp_files fs [a, b]).2 =
      (if fsExistsFile fs a then [a] else []) ++
        (if fsExistsFile fs b then [b] else []) := by
  simp only [remove_temp_files]
  by_cases ha : fsExistsFile fs a = true
  · have hba : fsExistsFile (fsRemoveFile fs a) b = fsExistsFile fs b := by
      rw [fsExistsFile_removeFile, if_neg (fun hh : b = a => hab hh.symm)]
    by_cases hb : fsExistsFile fs b = true
    · simp [ha, hb, hba, remove_temp_files]
    · simp only [Bool.not_eq_true] at hb
      simp [ha, hb, hba, remove_temp_files]
  · simp only [Bool.not_eq_true] at ha
    by_cases hb : fsExistsFile fs b = true
    · simp [ha, hb, remove_temp_files]
    · simp only [Bool.not_eq_true] at hb
      simp [ha, hb, remove_temp_files]

/-! String facts about the composed artifact and the temp paths -/

theorem subtitleBlock_length_pos (idx : Nat) (seg : Segment) :
    0 < (subtitleBlock idx seg).length := by
  simp only [subtitleBlock, String.length_append]
  have h2 : ("\n\n" : String).length = 2 := rfl
  omega

theorem srtComposeAux_eq_empty_iff (idx : Nat) (segs : List Segment) :
    srtComposeAux idx segs = "" ↔ segs = [] := by
  cases segs with
  | nil => simp [srtComposeAux]
  | cons s rest =>
      simp only [srtComposeAux]
      constructor
      · intro h
        have hlen := congrArg String.length h
        rw [String.length_append] at hlen
        have hb := subtitleBlock_length_pos idx s
        have hz : ("" : String).length = 0 := rfl
        rw [hz] at hlen
        omega
      · intro h
        exact absurd h (List.cons_ne_nil s rest)

theorem srtCompose_eq_empty_iff (segs : List Segment) :
    srtCompose segs = "" ↔ segs = [] :=
  srtComposeAux_eq_empty_iff 1 segs

theorem tempAudioPath_ne_tempSrtPath (pid : Nat) :
    tempAudioPath pid ≠ tempSrtPath pid := by
  intro h
  have hlen := congrArg String.length h
  simp only [tempAudioPath, tempSrtPath, String.length_append] at hlen
  have h1 : ("temp_audio_" : String).length = 11 := rfl
  have h2 : (".mp3" : String).length = 4 := rfl
  have h3 : ("transcription_" : String).length = 14 := rfl
  have h4 : (".srt" : String).length = 4 := rfl
  rw [h1, h2, h3, h4] at hlen
  omega

/-! Effect of each operation on the observable status of a job -/

theorem statusOf_create (st : SysState) (j content : String) (now : Nat)
    (id : String) :
    statusOf (create_transcription_job st j content now).1 id =
      if j = id then some .processing else statusOf st id := by
  simp only [create_transcription_job, statusOf, dictLookup_insert]
  by_cases h : j = id <;> simp [h]

theorem statusOf_execExceptHandler (st : SysState) (j msg id : String) :
    statusOf (execExceptHandler st j msg).1 id =
      if j = id then (statusOf st j).map (fun _ => .failed) else statusOf st id := by
  unfold execExceptHandler
  cases hl : dictLookup st.jobs j with
  | none =>
      by_cases h : j = id
      · subst h
        simp [statusOf, hl]
      · simp [statusOf, h]
  | some job =>
      by_cases h : j = id
      · subst h
        simp [statusOf, dictLookup_insert, hl]
      · simp [statusOf, dictLookup_insert, h]

theorem execExceptHandler_snd (st : SysState) (j msg : String) :
    (execExceptHandler st j msg).2 =
      if (dictLookup st.jobs j).isSome then none
      else some ("KeyError: " ++ j) := by
  unfold execExceptHandler
  cases hl : dictLookup st.jobs j <;> simp

theorem statusOf_run (st : SysState) (j ap sp : String) (o : ExecOutcome)
    (id : String) :
    statusOf (run_transcription_job st j ap sp o).1 id =
      if j = id then
        match statusOf st j, o with
        | none, _ => none
        | some _, .success _ => some .completed
        | some _, .engineError _ => some .failed
        | some _, .writeError _ => some .failed
      else statusOf st id := by
  cases o with
  | engineError msg =>
      rw [show run_transcription_job st j ap sp (.engineError msg) =
            execExceptHandler st j msg from rfl, statusOf_execExceptHandler]
      by_cases h : j = id
      · rw [if_pos h, if_pos h]
        cases hl : dictLookup st.jobs j <;> simp [statusOf, hl]
      · rw [if_neg h, if_neg h]
  | writeError msg =>
      rw [show run_transcription_job st j ap sp (.writeError msg) =
            execExceptHandler st j msg from rfl, statusOf_execExceptHandler]
      by_cases h : j = id
      · rw [if_pos h, if_pos h]
        cases hl : dictLookup st.jobs j <;> simp [statusOf, hl]
      · rw [if_neg h, if_neg h]
  | success segs =>
      simp only [run_transcription_job]
      cases hl : dictLookup st.jobs j with
      | some job =>
          by_cases h : j = id
          · subst h
            simp [statusOf, dictLookup_insert, hl]
          · simp [statusOf, dictLookup_insert, h, hl]
      | none =>
          rw [statusOf_execExceptHandler]
          by_cases h : j = id
          · subst h
            simp [statusOf, hl]
          · simp [statusOf, h, hl]

theorem run_snd (st : SysState) (j ap sp : String) (o : ExecOutcome) :
    (run_transcription_job st j ap sp o).2 =
      if (dictLookup st.jobs j).isSome then none
      else some ("KeyError: " ++ j) := by
  cases o with
  | engineError msg => exact execExceptHandler_snd st j msg
  | writeError msg => exact execExceptHandler_snd st j msg
  | success segs =>
      simp only [run_transcription_job]
      cases hl : dictLookup st.jobs j with
      | some job => simp [hl]
      | none => rw [execExceptHandler_snd]; simp [hl]

theorem statusOf_delete (st : SysState) (j id : String) :
    statusOf (delete_job st j).1 id = if id = j then none else statusOf st id := by
  unfold delete_job
  cases hl : dictLookup st.jobs j with
  | none =>
      by_cases h : id = j
      · subst h
        simp [statusOf, hl]
      · simp [h]
  | some job => by_cases h : id = j <;> simp [statusOf, dictLookup_erase, h]

theorem statusOf_cleanup (st : SysState) (j id : String) :
    statusOf (delayed_cleanup st j) id = if id = j then none else statusOf st id := by
  unfold delayed_cleanup
  cases hl : dictLookup st.jobs j with
  | none =>
      by_cases h : id = j
      · subst h
        simp [statusOf, hl]
      · simp [h]
  | some job => by_cases h : id = j <;> simp [statusOf, dictLookup_erase, h]

theorem get_job_status_fst (st : SysState) (j : String) :
    (get_job_status st j).1 = st := by
  unfold get_job_status
  cases dictLookup st.jobs j <;> rfl

theorem get_job_result_fst (st : SysState) (j : String) :
    (get_job_result st j).1 = st := by
  unfold get_job_result
  cases hl : dictLookup st.jobs j with
  | none => rfl
  | some job => cases hs : job.status <;> simp [hs]

/-! Claim theorems -/

/-- C10: `GetStatus` is read-only — for every job id and every service state,
`get_job_status` returns the state (registry and filesystem) unchanged, both
when it answers the status, created_at and error fields of the job and when it
fails with a 404 NotFound. -/
theorem get_job_status_readonly (st : SysState) (job_id : String) :
    (get_job_status st job_id).1 = st ∧
    (∀ job, dictLookup st.jobs job_id = some job →
        (get_job_status st job_id).2 =
          .ok { job_id := job_id, status := job.status,
                created_at := job.created_at, error := job.error }) ∧
    (dictLookup st.jobs job_id = none →
        (get_job_status st job_id).2 =
          .error { status_code := 404, detail := "Job not found" }) := by
  refine ⟨get_job_status_fst st job_id, ?_, ?_⟩
  · intro job h
    simp [get_job_status, h]
  · intro h
    simp [get_job_status, h]

/-- C10 witness: `get_job_status` on a concrete one-job state leaves the state
unchanged and returns the fields of the job. -/
theorem get_job_status_readonly_witness :
    (get_job_status { jobs := [("j", { id := "j", status := .processing, created_at := 5,
                                       audio_path := "jobs/j/audio.mp3",
                                       srt_path := "jobs/j/transcription.srt",
                                       error := none })],
                      fs := { files := [], dirs := [] } } "j").1 =
      { jobs := [("j", { id := "j", status := .processing, created_at := 5,
                         audio_path := "jobs/j/audio.mp3",
                         srt_path := "jobs/j/transcription.srt",
                         error := none })],
        fs := { files := [], dirs := [] } } ∧
    (get_job_status { jobs := [("j", { id := "j", status := .processing, created_at := 5,
                                       audio_path := "jobs/j/audio.mp3",
                                       srt_path := "jobs/j/transcription.srt",
                                       error := none })],
                      fs := { files := [], dirs := [] } } "j").2 =
      .ok { job_id := "j", status := .processing, created_at := 5, error := none } := by
  have h := get_job_status_readonly
    { jobs := [("j", { id := "j", status := .processing, created_at := 5,
                       audio_path := "jobs/j/audio.mp3",
                       srt_path := "jobs/j/transcription.srt",
                       error := none })],
      fs := { files := [], dirs := [] } } "j"
  exact ⟨h.1, h.2.1 _ rfl⟩

/-- C8 counterexample: inserting a job under an id that already exists is not
rejected with a DuplicateId error — `jobs[job_id] = {...}` silently replaces
the existing (here already completed) record and the endpoint answers
normally. -/
theorem create_duplicate_id_not_rejected :
    statusOf { jobs := [("j", { id := "j", status := .completed, created_at := 5,
                                audio_path := "jobs/j/audio.mp3",
                                srt_path := "jobs/j/transcription.srt",
                                error := none })],
               fs := { files := [], dirs := [] } } "j" = some .completed ∧
    (create_transcription_job
        { jobs := [("j", { id := "j", status := .completed, created_at := 5,
                           audio_path := "jobs/j/audio.mp3",
                           srt_path := "jobs/j/transcription.srt",
                           error := none })],
          fs := { files := [], dirs := [] } } "j" "bytes" 99).2 =
      { job_id := "j", status := "processing" } ∧
    statusOf (create_transcription_job
        { jobs := [("j", { id := "j", status := .completed, created_at := 5,
                           audio_path := "jobs/j/audio.mp3",
                           srt_path := "jobs/j/transcription.srt",
                           error := none })],
          fs := { files := [], dirs := [] } } "j" "bytes" 99).1 "j" =
      some .processing := by
  refine ⟨rfl, rfl, rfl⟩

/-- C8 (amended): job creation never checks for an existing record: for every
registry state it unconditionally assigns the fresh `Processing` record under
the given id (replacing any record already there) and reports success;
uniqueness relies solely on the uuid generator. -/
theorem create_transcription_job_replaces (st : SysState)
    (job_id content : String) (now : Nat) :
    dictLookup (create_transcription_job st job_id content now).1.jobs job_id =
      some { id := job_id, status := .processing, created_at := now,
             audio_path := "jobs/" ++ job_id ++ "/audio.mp3",
             srt_path := "jobs/" ++ job_id ++ "/transcription.srt",
             error := none } ∧
    (create_transcription_job st job_id content now).2 =
      { job_id := job_id, status := "processing" } := by
  constructor
  · simp [create_transcription_job, dictLookup_insert]
  · rfl

/-- C4: when the 600-second deadline elapses, the client does NOT receive a
504-equivalent response.  The inner handler raises
`HTTPException(504, "Processing timed out")`, but `HTTPException` is an
`Exception`, so the enclosing `except Exception` of the same handler catches it and
returns the generic 500 JSON failure body instead. -/
theorem transcribe_timeout_returns_500 (fs : FS) (pid : Nat) (content : String) :
    (transcribe fs pid content .timedOut).resp =
      .jsonError 500 "504: Processing timed out" ∧
    ((transcribe fs pid content .timedOut).resp).statusCode = 500 := by
  exact ⟨rfl, rfl⟩

/-- C1 counterexample: if the job record was deleted while the executor ran,
an engine failure reaches the `except` handler, whose own
`jobs[job_id]["status"] = "failed"` raises `KeyError` — the exception
propagates out of `run_transcription_job` instead of being converted to a
Failed state. -/
theorem run_transcription_job_propagates_keyerror :
    (run_transcription_job { jobs := [], fs := { files := [], dirs := [] } }
        "j" "jobs/j/audio.mp3" "jobs/j/transcription.srt"
        (.engineError "boom")).2 = some "KeyError: j" := rfl

/-- C1 (amended): an exception from the engine call, the alignment step or the
artifact write is caught and converted to a terminal Failed state with the
message recorded, and nothing escapes the executor — provided the job record
still exists in the registry; if the record was deleted while the executor
was running, the registry write of the handler raises `KeyError`, which propagates
out of the executor. -/
theorem run_transcription_job_failure_semantics
    (st : SysState) (job_id audio_path srt_path msg : String) (o : ExecOutcome)
    (hfail : o = .engineError msg ∨ o = .writeError msg) :
    (∀ job, dictLookup st.jobs job_id = some job →
        (run_transcription_job st job_id audio_path srt_path o).2 = none ∧
        dictLookup (run_transcription_job st job_id audio_path srt_path o).1.jobs
            job_id =
          some { job with status := .failed, error := some msg }) ∧
    (dictLookup st.jobs job_id = none →
        (run_transcription_job st job_id audio_path srt_path o).2 =
          some ("KeyError: " ++ job_id)) := by
  have hrun : run_transcription_job st job_id audio_path srt_path o =
      execExceptHandler st job_id msg := by
    rcases hfail with h | h <;> subst h <;> rfl
  rw [hrun]
  constructor
  · intro job h
    refine ⟨?_, ?_⟩
    · simp [execExceptHandler, h]
    · simp [execExceptHandler, h, dictLookup_insert]
  · intro h
    simp [execExceptHandler, h]

/-- C1 witness: on a registered processing job, an engine error is recorded as
Failed with the message and no exception escapes. -/
theorem run_transcription_job_failure_semantics_witness :
    (run_transcription_job
        { jobs := [("j", { id := "j", status := .processing, created_at := 5,
                           audio_path := "jobs/j/audio.mp3",
                           srt_path := "jobs/j/transcription.srt",
                           error := none })],
          fs := { files := [], dirs := [] } }
        "j" "jobs/j/audio.mp3" "jobs/j/transcription.srt"
        (.engineError "boom")).2 = none ∧
    dictLookup (run_transcription_job
        { jobs := [("j", { id := "j", status := .processing, created_at := 5,
                           audio_path := "jobs/j/audio.mp3",
                           srt_path := "jobs/j/transcription.srt",
                           error := none })],
          fs := { files := [], dirs := [] } }
        "j" "jobs/j/audio.mp3" "jobs/j/transcription.srt"
        (.engineError "boom")).1.jobs "j" =
      some { id := "j", status := .failed, created_at := 5,
             audio_path := "jobs/j/audio.mp3",
             srt_path := "jobs/j/transcription.srt",
             error := some "boom" } := by
  have h := run_transcription_job_failure_semantics
    { jobs := [("j", { id := "j", status := .processing, created_at := 5,
                       audio_path := "jobs/j/audio.mp3",
                       srt_path := "jobs/j/transcription.srt",
                       error := none })],
      fs := { files := [], dirs := [] } }
    "j" "jobs/j/audio.mp3" "jobs/j/transcription.srt" "boom"
    (.engineError "boom") (Or.inl rfl)
  exact h.1 _ rfl

/-- C3 counterexample: deleting the same job twice errors the second time —
the first call acknowledges, the second raises a 404 `HTTPException` because
the id is no longer registered. -/
theorem delete_job_twice_errors :
    (delete_job { jobs := [("j", { id := "j", status := .completed, created_at := 5,
                                   audio_path := "jobs/j/audio.mp3",
                                   srt_path := "jobs/j/transcription.srt",
                                   error := none })],
                  fs := { files := [], dirs := [] } } "j").2 = .ok "deleted" ∧
    (delete_job (delete_job
        { jobs := [("j", { id := "j", status := .completed, created_at := 5,
                           audio_path := "jobs/j/audio.mp3",
                           srt_path := "jobs/j/transcription.srt",
                           error := none })],
          fs := { files := [], dirs := [] } } "j").1 "j").2 =
      .error { status_code := 404, detail := "Job not found" } := by
  exact ⟨rfl, rfl⟩

/-- C3 (amended): deleting a registered job removes it and acknowledges, but
deleting an absent id — in particular any second deletion, or a deletion after
the expiry sweep fired — fails with a 404 NotFound error and leaves the state
unchanged: the endpoint is not an idempotent no-op for the caller. -/
theorem delete_job_semantics (st : SysState) (job_id : String) :
    (∀ job, dictLookup st.jobs job_id = some job →
        (delete_job st job_id).2 = .ok "deleted" ∧
        statusOf (delete_job st job_id).1 job_id = none) ∧
    (dictLookup st.jobs job_id = none →
        (delete_job st job_id).2 =
          .error { status_code := 404, detail := "Job not found" } ∧
        (delete_job st job_id).1 = st) := by
  constructor
  · intro job h
    refine ⟨by simp [delete_job, h], ?_⟩
    rw [statusOf_delete]
    simp
  · intro h
    exact ⟨by simp [delete_job, h], by simp [delete_job, h]⟩

/-- C3 witness: concrete first deletion succeeds; a deletion on the emptied
registry answers 404. -/
theorem delete_job_semantics_witness :
    (delete_job { jobs := [("j", { id := "j", status := .completed, created_at := 5,
                                   audio_path := "jobs/j/audio.mp3",
                                   srt_path := "jobs/j/transcription.srt",
                                   error := none })],
                  fs := { files := [], dirs := [] } } "j").2 = .ok "deleted" ∧
    (delete_job { jobs := [], fs := { files := [], dirs := [] } } "j").2 =
      .error { status_code := 404, detail := "Job not found" } := by
  have h := delete_job_semantics
    { jobs := [("j", { id := "j", status := .completed, created_at := 5,
                       audio_path := "jobs/j/audio.mp3",
                       srt_path := "jobs/j/transcription.srt",
                       error := none })],
      fs := { files := [], dirs := [] } } "j"
  exact ⟨(h.1 _ rfl).1,
    ((delete_job_semantics { jobs := [], fs := { files := [], dirs := [] } } "j").2
      rfl).1⟩

/-- C9 counterexample: two distinct concurrent requests handled by the same
process (pid 42) use the identical temp path pair — derived from the pid
alone — and the second upload therefore overwrites the first. -/
theorem temp_paths_collide_within_process :
    (transcribe { files := [], dirs := [] } 42 "audio-A" (.completed [])).temp_files =
      (transcribe { files := [], dirs := [] } 42 "audio-B" .timedOut).temp_files ∧
    (transcribe { files := [], dirs := [] } 42 "audio-A" (.completed [])).temp_files =
      ["temp_audio_42.mp3", "transcription_42.srt"] ∧
    fsRead (fsWrite (fsWrite { files := [], dirs := [] } (tempAudioPath 42) "audio-A")
        (tempAudioPath 42) "audio-B") (tempAudioPath 42) = some "audio-B" := by
  refine ⟨rfl, rfl, rfl⟩

/-- C9 (amended): the temp paths of the synchronous handler are per-process, not
per-request: every request in a process uses exactly the pair
`temp_audio_{pid}.mp3`, `transcription_{pid}.srt`; within one request the
audio and subtitle paths are distinct from each other. -/
theorem transcribe_temp_paths_per_process (fs : FS) (pid : Nat)
    (content : String) (o : SyncOutcome) :
    (transcribe fs pid content o).temp_files = [tempAudioPath pid, tempSrtPath pid] ∧
    tempAudioPath pid ≠ tempSrtPath pid := by
  refine ⟨?_, tempAudioPath_ne_tempSrtPath pid⟩
  cases o <;> rfl

/-- C6: a successful `GetResult` does not delete anything immediately — it
leaves the registry and filesystem unchanged, so an immediate repeated fetch
returns the same artifact — and schedules exactly one `delayed_cleanup` timer
with the fixed 86400-second (24-hour) retention delay.  When the timer fires
after the job was already deleted manually, the expiry deletion is a no-op;
when the job is still registered, it removes the registry entry and the
audio and result files of the job. -/
theorem get_job_result_defers_cleanup
    (st : SysState) (job_id : String) (job : Job)
    (hreg : dictLookup st.jobs job_id = some job)
    (hdone : job.status = .completed) :
    (get_job_result st job_id).1 = st ∧
    (get_job_result st job_id).2.1 =
      .ok { path := job.srt_path, filename := "transcription.srt",
            media_type := "text/plain" } ∧
    (get_job_result st job_id).2.2 = [{ job_id := job_id, delay := 86400 }] ∧
    (get_job_result (get_job_result st job_id).1 job_id).2.1 =
      (get_job_result st job_id).2.1 ∧
    (∀ st', dictLookup st'.jobs job_id = none →
        delayed_cleanup st' job_id = st') ∧
    (∀ st' job', dictLookup st'.jobs job_id = some job' →
        statusOf (delayed_cleanup st' job_id) job_id = none ∧
        fsExistsFile (delayed_cleanup st' job_id).fs job'.audio_path = false ∧
        fsExistsFile (delayed_cleanup st' job_id).fs job'.srt_path = false) := by
  refine ⟨get_job_result_fst st job_id, ?_, ?_, ?_, ?_, ?_⟩
  · simp [get_job_result, hreg, hdone]
  · simp [get_job_result, hreg, hdone]
  · rw [get_job_result_fst]
  · intro st' h
    simp [delayed_cleanup, h]
  · intro st' job' h
    refine ⟨?_, ?_, ?_⟩
    · rw [statusOf_cleanup]
      simp
    · simp only [delayed_cleanup, h]
      simp [fsExistsFile, fsRead_rmdirAttempt, remove_temp_files_read]
    · simp only [delayed_cleanup, h]
      simp [fsExistsFile, fsRead_rmdirAttempt, remove_temp_files_read]

/-- C6 witness: on a concrete completed job, `get_job_result` leaves the state
unchanged, serves the artifact, schedules the 24-hour timer, and a timer
firing on the emptied registry is a no-op. -/
theorem get_job_result_defers_cleanup_witness :
    (get_job_result { jobs := [("j", { id := "j", status := .completed, created_at := 5,
                                       audio_path := "jobs/j/audio.mp3",
                                       srt_path := "jobs/j/transcription.srt",
                                       error := none })],
                      fs := { files := [("jobs/j/transcription.srt", "1\n")],
                              dirs := ["jobs", "jobs/j"] } } "j").1 =
      { jobs := [("j", { id := "j", status := .completed, created_at := 5,
                         audio_path := "jobs/j/audio.mp3",
                         srt_path := "jobs/j/transcription.srt",
                         error := none })],
        fs := { files := [("jobs/j/transcription.srt", "1\n")],
                dirs := ["jobs", "jobs/j"] } } ∧
    (get_job_result { jobs := [("j", { id := "j", status := .completed, created_at := 5,
                                       audio_path := "jobs/j/audio.mp3",
                                       srt_path := "jobs/j/transcription.srt",
                                       error := none })],
                      fs := { files := [("jobs/j/transcription.srt", "1\n")],
                              dirs := ["jobs", "jobs/j"] } } "j").2.2 =
      [{ job_id := "j", delay := 86400 }] ∧
    delayed_cleanup { jobs := [], fs := { files := [], dirs := [] } } "j" =
      { jobs := [], fs := { files := [], dirs := [] } } := by
  have h := get_job_result_defers_cleanup
    { jobs := [("j", { id := "j", status := .completed, created_at := 5,
                       audio_path := "jobs/j/audio.mp3",
                       srt_path := "jobs/j/transcription.srt",
                       error := none })],
      fs := { files := [("jobs/j/transcription.srt", "1\n")],
              dirs := ["jobs", "jobs/j"] } } "j" _ rfl rfl
  exact ⟨h.1, h.2.2.1, h.2.2.2.2.1 { jobs := [], fs := { files := [], dirs := [] } } rfl⟩

/-- C7 counterexample: an engine output with zero word segments still completes
the job, but `srt.compose` of an empty subtitle list is the empty string, so
the Completed job's result artifact exists and is readable yet is EMPTY. -/
theorem completed_job_empty_artifact :
    statusOf (run_transcription_job
        { jobs := [("j", { id := "j", status := .processing, created_at := 5,
                           audio_path := "jobs/j/audio.mp3",
                           srt_path := "jobs/j/transcription.srt",
                           error := none })],
          fs := { files := [], dirs := [] } }
        "j" "jobs/j/audio.mp3" "jobs/j/transcription.srt" (.success [])).1 "j" =
      some .completed ∧
    fsRead (run_transcription_job
        { jobs := [("j", { id := "j", status := .processing, created_at := 5,
                           audio_path := "jobs/j/audio.mp3",
                           srt_path := "jobs/j/transcription.srt",
                           error := none })],
          fs := { files := [], dirs := [] } }
        "j" "jobs/j/audio.mp3" "jobs/j/transcription.srt" (.success [])).1.fs
        "jobs/j/transcription.srt" = some "" := by
  exact ⟨rfl, rfl⟩

/-- C7 (amended): when the executor finishes on a registered job — on success
the job becomes Completed and the result artifact exists on storage and is
readable, with content `srtCompose segs`, which is non-empty exactly when the
engine output has at least one word segment (the zero-segment output yields an
empty artifact); on failure the job becomes Failed with its error field set to
the message of the exception. -/
theorem completed_artifact_readable_failed_error_set
    (st : SysState) (job_id audio_path srt_path : String) (job : Job)
    (hreg : dictLookup st.jobs job_id = some job) :
    (∀ segs,
        statusOf (run_transcription_job st job_id audio_path srt_path
            (.success segs)).1 job_id = some .completed ∧
        fsRead (run_transcription_job st job_id audio_path srt_path
            (.success segs)).1.fs srt_path = some (srtCompose segs) ∧
        (srtCompose segs = "" ↔ segs = [])) ∧
    (∀ msg,
        statusOf (run_transcription_job st job_id audio_path srt_path
            (.engineError msg)).1 job_id = some .failed ∧
        dictLookup (run_transcription_job st job_id audio_path srt_path
            (.engineError msg)).1.jobs job_id =
          some { job with status := .failed, error := some msg }) := by
  constructor
  · intro segs
    refine ⟨?_, ?_, srtCompose_eq_empty_iff segs⟩
    · rw [statusOf_run, if_pos rfl]
      simp [statusOf, hreg]
    · simp [run_transcription_job, generate_srt, hreg, fsRead_write]
  · intro msg
    constructor
    · rw [statusOf_run, if_pos rfl]
      simp [statusOf, hreg]
    · show dictLookup (execExceptHandler st job_id msg).1.jobs job_id = _
      simp [execExceptHandler, hreg, dictLookup_insert]

/-- C7 witness: a one-segment engine output on a registered job gives a
Completed job with a readable, non-empty artifact; a failing engine gives a
Failed job with the message recorded. -/
theorem completed_artifact_readable_failed_error_set_witness :
    statusOf (run_transcription_job
        { jobs := [("j", { id := "j", status := .processing, created_at := 5,
                           audio_path := "jobs/j/audio.mp3",
                           srt_path := "jobs/j/transcription.srt",
                           error := none })],
          fs := { files := [], dirs := [] } }
        "j" "jobs/j/audio.mp3" "jobs/j/transcription.srt"
        (.success [{ startMs := 0, endMs := 1500, word := "hello" }])).1 "j" =
      some .completed ∧
    fsRead (run_transcription_job
        { jobs := [("j", { id := "j", status := .processing, created_at := 5,
                           audio_path := "jobs/j/audio.mp3",
                           srt_path := "jobs/j/transcription.srt",
                           error := none })],
          fs := { files := [], dirs := [] } }
        "j" "jobs/j/audio.mp3" "jobs/j/transcription.srt"
        (.success [{ startMs := 0, endMs := 1500, word := "hello" }])).1.fs
        "jobs/j/transcription.srt" =
      some (srtCompose [{ startMs := 0, endMs := 1500, word := "hello" }]) ∧
    (srtCompose [{ startMs := 0, endMs := 1500, word := "hello" }] = "" ↔
      ([{ startMs := 0, endMs := 1500, word := "hello" }] : List Segment) = []) := by
  have h := completed_artifact_readable_failed_error_set
    { jobs := [("j", { id := "j", status := .processing, created_at := 5,
                       audio_path := "jobs/j/audio.mp3",
                       srt_path := "jobs/j/transcription.srt",
                       error := none })],
      fs := { files := [], dirs := [] } }
    "j" "jobs/j/audio.mp3" "jobs/j/transcription.srt" _ rfl
  exact h.1 [{ startMs := 0, endMs := 1500, word := "hello" }]

/-- C5: starting from a filesystem without this request's temp files, on every
exit path of the synchronous handler — success, timeout (with its double
`remove_temp_files` call), and error — after the request completes neither
temp path exists, and the removal log shows each created temp file was
physically removed exactly once: the upload file once on every path that
created it, the subtitle file once on the success path (the only path that
creates it), and never a second physical removal. -/
theorem transcribe_cleans_temp_files
    (fs : FS) (pid : Nat) (content : String) (o : SyncOutcome)
    (ha : fsExistsFile fs (tempAudioPath pid) = false)
    (hb : fsExistsFile fs (tempSrtPath pid) = false) :
    fsExistsFile (transcribe fs pid content o).fs (tempAudioPath pid) = false ∧
    fsExistsFile (transcribe fs pid content o).fs (tempSrtPath pid) = false ∧
    (transcribe fs pid content o).removed =
      (match o with
       | .saveError _ => []
       | .completed _ => [tempAudioPath pid, tempSrtPath pid]
       | .timedOut => [tempAudioPath pid]
       | .procError _ => [tempAudioPath pid]) := by
  have hab := tempAudioPath_ne_tempSrtPath pid
  have hmema : tempAudioPath pid ∈ [tempAudioPath pid, tempSrtPath pid] := by simp
  have hmemb : tempSrtPath pid ∈ [tempAudioPath pid, tempSrtPath pid] := by simp
  have h1 : ∀ X : FS,
      fsExistsFile (remove_temp_files X [tempAudioPath pid, tempSrtPath pid]).1
        (tempAudioPath pid) = false :=
    fun X => remove_temp_files_not_exists X _ _ hmema
  have h2 : ∀ X : FS,
      fsExistsFile (remove_temp_files X [tempAudioPath pid, tempSrtPath pid]).1
        (tempSrtPath pid) = false :=
    fun X => remove_temp_files_not_exists X _ _ hmemb
  have h3 : ∀ X : FS,
      (remove_temp_files X [tempAudioPath pid, tempSrtPath pid]).2 =
        (if fsExistsFile X (tempAudioPath pid) then [tempAudioPath pid] else []) ++
          (if fsExistsFile X (tempSrtPath pid) then [tempSrtPath pid] else []) :=
    fun X => remove_temp_files_pair_removed X _ _ hab
  have h4 : ∀ (X : FS) (c : String),
      fsExistsFile (fsWrite X (tempAudioPath pid) c) (tempSrtPath pid) =
        fsExistsFile X (tempSrtPath pid) :=
    fun X c => fsExistsFile_write_ne X _ c _ (Ne.symm hab)
  have h5 : ∀ (X : FS) (c : String),
      fsExistsFile (fsWrite X (tempSrtPath pid) c) (tempAudioPath pid) =
        fsExistsFile X (tempAudioPath pid) :=
    fun X c => fsExistsFile_write_ne X _ c _ hab
  cases o with
  | saveError msg =>
      exact ⟨h1 fs, h2 fs, by simp [transcribe, h3, ha, hb]⟩
  | completed segs =>
      refine ⟨h1 _, h2 _, ?_⟩
      simp [transcribe, h3, h4, h5, fsExistsFile_write_self, ha, hb]
  | timedOut =>
      refine ⟨h1 _, h2 _, ?_⟩
      simp [transcribe, h3, h1, h2, h4, fsExistsFile_write_self, hb]
  | procError msg =>
      refine ⟨h1 _, h2 _, ?_⟩
      simp [transcribe, h3, h4, fsExistsFile_write_self, hb]

/-- C5 witness: a concrete timed-out request on an empty filesystem leaves no
temp file behind and removed the upload file exactly once. -/
theorem transcribe_cleans_temp_files_witness :
    fsExistsFile (transcribe { files := [], dirs := [] } 7 "audio-bytes"
        .timedOut).fs (tempAudioPath 7) = false ∧
    fsExistsFile (transcribe { files := [], dirs := [] } 7 "audio-bytes"
        .timedOut).fs (tempSrtPath 7) = false ∧
    (transcribe { files := [], dirs := [] } 7 "audio-bytes" .timedOut).removed =
      [tempAudioPath 7] :=
  transcribe_cleans_temp_files { files := [], dirs := [] } 7 "audio-bytes"
    .timedOut rfl rfl

/-- C2: along every operation of the service — job creation (with the uuid
freshness contract of the uuid generator), the single scheduled executor run per job,
the status/result reads, manual deletion and cleanup-timer firing — a job's
status only ever moves `Processing → Completed` or `Processing → Failed`: the
pending-executor invariant is preserved, a terminal status never changes
(except that deletion removes the record entirely), and a job is never
observed `Processing` unless it was `Processing` (or absent, at its creation)
before the step — so no job leaves a terminal state or revisits
`Processing`. -/
theorem job_status_transitions (c c' : Config) (hInv : PendingInv c)
    (h : Step c c') :
    PendingInv c' ∧
    (∀ id st0, statusOf c.sys id = some st0 → st0 ≠ .processing →
        statusOf c'.sys id = some st0 ∨ statusOf c'.sys id = none) ∧
    (∀ id, statusOf c'.sys id = some .processing →
        statusOf c.sys id = some .processing ∨ statusOf c.sys id = none) := by
  cases h with
  | create job_id content now hfresh hnew =>
      refine ⟨?_, ?_, ?_⟩
      · intro id hid
        rcases List.mem_cons.mp hid with h1 | h1
        · subst h1
          right
          rw [statusOf_create, if_pos rfl]
        · by_cases he : job_id = id
          · subst he
            exact absurd h1 hnew
          · rw [statusOf_create, if_neg he]
            exact hInv id h1
      · intro id st0 hst hterm
        by_cases he : job_id = id
        · subst he
          rw [hfresh] at hst
          exact absurd hst (by simp)
        · rw [statusOf_create, if_neg he]
          exact Or.inl hst
      · intro id hp
        by_cases he : job_id = id
        · subst he
          exact Or.inr hfresh
        · rw [statusOf_create, if_neg he] at hp
          exact Or.inl hp
  | execFinish job_id audio_path srt_path o hsched =>
      refine ⟨?_, ?_, ?_⟩
      · intro id hid
        have hmem := List.mem_filter.mp hid
        have hne : id ≠ job_id := by simpa using hmem.2
        rw [statusOf_run, if_neg (fun hh : job_id = id => hne hh.symm)]
        exact hInv id hmem.1
      · intro id st0 hst hterm
        by_cases he : job_id = id
        · subst he
          rcases hInv job_id hsched with h2 | h2
          · rw [h2] at hst
            exact absurd hst (by simp)
          · rw [h2] at hst
            have : st0 = .processing := by
              injection hst with hh
              exact hh.symm
            exact absurd this hterm
        · rw [statusOf_run, if_neg he]
          exact Or.inl hst
      · intro id hp
        by_cases he : job_id = id
        · subst he
          rw [statusOf_run, if_pos rfl] at hp
          cases hs : statusOf c.sys job_id with
          | none =>
              rw [hs] at hp
              cases o <;> exact absurd hp (by simp)
          | some s =>
              rw [hs] at hp
              cases o <;> exact absurd hp (by simp)
        · rw [statusOf_run, if_neg he] at hp
          exact Or.inl hp
  | statusQuery job_id =>
      refine ⟨?_, ?_, ?_⟩
      · intro id hid
        rw [get_job_status_fst]
        exact hInv id hid
      · intro id st0 hst hterm
        rw [get_job_status_fst]
        exact Or.inl hst
      · intro id hp
        rw [get_job_status_fst] at hp
        exact Or.inl hp
  | resultQuery job_id =>
      refine ⟨?_, ?_, ?_⟩
      · intro id hid
        rw [get_job_result_fst]
        exact hInv id hid
      · intro id st0 hst hterm
        rw [get_job_result_fst]
        exact Or.inl hst
      · intro id hp
        rw [get_job_result_fst] at hp
        exact Or.inl hp
  | deleteOp job_id =>
      refine ⟨?_, ?_, ?_⟩
      · intro id hid
        by_cases he : id = job_id
        · left
          rw [statusOf_delete, if_pos he]
        · rw [statusOf_delete, if_neg he]
          exact hInv id hid
      · intro id st0 hst hterm
        by_cases he : id = job_id
        · right
          rw [statusOf_delete, if_pos he]
        · rw [statusOf_delete, if_neg he]
          exact Or.inl hst
      · intro id hp
        rw [statusOf_delete] at hp
        by_cases he : id = job_id
        · rw [if_pos he] at hp
          exact absurd hp (by simp)
        · rw [if_neg he] at hp
          exact Or.inl hp
  | cleanupFire job_id =>
      refine ⟨?_, ?_, ?_⟩
      · intro id hid
        by_cases he : id = job_id
        · left
          rw [statusOf_cleanup, if_pos he]
        · rw [statusOf_cleanup, if_neg he]
          exact hInv id hid
      · intro id st0 hst hterm
        by_cases he : id = job_id
        · right
          rw [statusOf_cleanup, if_pos he]
        · rw [statusOf_cleanup, if_neg he]
          exact Or.inl hst
      · intro id hp
        rw [statusOf_cleanup] at hp
        by_cases he : id = job_id
        · rw [if_pos he] at hp
          exact absurd hp (by simp)
        · rw [if_neg he] at hp
          exact Or.inl hp

/-- C2 witness: from a concrete configuration holding one completed job with
no pending executor, a manual-delete step preserves the invariant and moves
the completed job's status only to "record gone", never to another status. -/
theorem job_status_transitions_witness :
    PendingInv { sys := { jobs := [("j", { id := "j", status := .completed,
                                           created_at := 5,
                                           audio_path := "jobs/j/audio.mp3",
                                           srt_path := "jobs/j/transcription.srt",
                                           error := none })],
                          fs := { files := [], dirs := [] } },
                 pendingExec := [] } ∧
    (statusOf (delete_job { jobs := [("j", { id := "j", status := .completed,
                                             created_at := 5,
                                             audio_path := "jobs/j/audio.mp3",
                                             srt_path := "jobs/j/transcription.srt",
                                             error := none })],
                            fs := { files := [], dirs := [] } } "j").1 "j" =
        some .completed ∨
      statusOf (delete_job { jobs := [("j", { id := "j", status := .completed,
                                              created_at := 5,
                                              audio_path := "jobs/j/audio.mp3",
                                              srt_path := "jobs/j/transcription.srt",
                                              error := none })],
                             fs := { files := [], dirs := [] } } "j").1 "j" =
        none) := by
  have hInv : PendingInv { sys := { jobs := [("j", { id := "j", status := .completed,
                                                     created_at := 5,
                                                     audio_path := "jobs/j/audio.mp3",
                                                     srt_path := "jobs/j/transcription.srt",
                                                     error := none })],
                                    fs := { files := [], dirs := [] } },
                           pendingExec := [] } := by
    intro id hid
    exact absurd hid (List.not_mem_nil id)
  have h := job_status_transitions _ _ hInv
    (Step.deleteOp { sys := { jobs := [("j", { id := "j", status := .completed,
                                               created_at := 5,
                                               audio_path := "jobs/j/audio.mp3",
                                               srt_path := "jobs/j/transcription.srt",
                                               error := none })],
                              fs := { files := [], dirs := [] } },
                     pendingExec := [] } "j")
  exact ⟨hInv, h.2.1 "j" .completed rfl (by simp)⟩

end WhisperAPI
